import Mathlib

/-!
Verification of the inspectorchure detection-to-score pipeline.

Shallow embedding of the core pipeline:
  - `src/lib/detection-mapper.ts` : `HygieneCategory`, `calculateFrequency`
  - `src/lib/scoring-engine.ts`   : `CATEGORY_WEIGHTS`, `calculateScores`,
    `generateSummary`
  - `src/lib/vlm-response-parser.ts` : `parseVLMResults`
  - `src/lib/vlm-service.ts`      : `analyzeFramesBatch`
  - `src/unnamed/part_003` (route `/api/vision/analyze`) : `parseVLMResponse`
  - `src/lib/types.ts`            : the brightness gate inside `analyzeVideo`

JavaScript numbers are modelled as exact rationals; where the code can divide
by zero, the JS result (NaN / Infinity, never an exception) is modelled
explicitly by `JsNum`.
-/

namespace Inspectorchure

/-- Result of a JavaScript floating-point computation: a finite value, one of
the two infinities, or NaN.  JS division never throws. -/
inductive JsNum where
  | val (q : ℚ)
  | posInf
  | negInf
  | nan
deriving DecidableEq, Repr

/-- JavaScript division `a / b`: finite quotient when `b ≠ 0`, otherwise
NaN for `0 / 0` and a signed infinity for `a / 0`, `a ≠ 0`. -/
def jsDiv (a b : ℚ) : JsNum :=
  if b = 0 then
    if a = 0 then JsNum.nan
    else if 0 < a then JsNum.posInf
    else JsNum.negInf
  else JsNum.val (a / b)

/-- Multiplication of a JS number by a positive finite constant
(the `* 100` step of `calculateFrequency`). -/
def jsMulPos (x : JsNum) (c : ℚ) : JsNum :=
  match x with
  | JsNum.val q => JsNum.val (q * c)
  | JsNum.posInf => JsNum.posInf
  | JsNum.negInf => JsNum.negInf
  | JsNum.nan => JsNum.nan

/-- JS `Math.round`: round half toward positive infinity. -/
def jsRound (q : ℚ) : ℤ := ⌊q + 1/2⌋

/-- The JS idiom `x || d` on a number already known finite: JS replaces the falsy value 0
by the default. -/
def jsOrDefault (x d : ℚ) : ℚ := if x = 0 then d else x

/-- The JS idiom `xs[0] || d` on a number list: `undefined` (empty list) and the falsy
value 0 both fall back to the default. -/
def jsHeadOr (xs : List ℕ) (d : ℕ) : ℕ :=
  match xs with
  | [] => d
  | t :: _ => if t = 0 then d else t

/-- Embeds `HygieneCategory` from `src/lib/detection-mapper.ts`.  In the VLM path
`detectedFrames` holds timestamps in seconds. -/
structure HygieneCategory where
  name : String
  keywords : List String
  detectedFrames : List ℕ
  totalDetections : ℕ
  averageConfidence : ℚ
  isPositive : Bool
deriving DecidableEq, Repr

/-- The eight-category `MappedDetections` shape that `parseVLMResults`
produces and `calculateScores` consumes (the runtime shape of the VLM
pipeline; the older seven-field TypeScript interface is bypassed by the
`as unknown as MappedDetections` cast in `vlm-response-parser.ts`). -/
structure MappedDetections where
  protectiveGloves : HygieneCategory
  bareHands : HygieneCategory
  hairNet : HygieneCategory
  cleanSurface : HygieneCategory
  properApron : HygieneCategory
  handwashStation : HygieneCategory
  pestSigns : HygieneCategory
  crossContamination : HygieneCategory
deriving DecidableEq, Repr

/-- Embeds `calculateFrequency` from `src/lib/detection-mapper.ts`:
`(category.detectedFrames.length / totalFrames) * 100`, with genuine JS
division semantics (no exception, NaN / Infinity on a zero denominator). -/
def calculateFrequency (category : HygieneCategory) (totalFrames : ℚ) : JsNum :=
  jsMulPos (jsDiv (category.detectedFrames.length : ℚ) totalFrames) 100

/-- The finite value of `calculateFrequency` when `totalFrames` is nonzero
(rational division). -/
def freqQ (category : HygieneCategory) (totalFrames : ℚ) : ℚ :=
  (category.detectedFrames.length : ℚ) / totalFrames * 100

/-- On a nonzero frame count JS division is ordinary division, so
`calculateFrequency` is the finite rational `freqQ`. -/
theorem calculateFrequency_of_ne_zero (category : HygieneCategory) (totalFrames : ℚ)
    (h : totalFrames ≠ 0) :
    calculateFrequency category totalFrames = JsNum.val (freqQ category totalFrames) := by
  simp [calculateFrequency, jsDiv, jsMulPos, freqQ, h]

/-- Embeds the shape of `CATEGORY_WEIGHTS` from `src/lib/scoring-engine.ts`. -/
structure CategoryWeights where
  protectiveGloves : ℚ
  cleanSurface : ℚ
  hairNet : ℚ
  properApron : ℚ
  handwashStation : ℚ
  bareHands : ℚ
  pestSigns : ℚ
  crossContamination : ℚ
deriving DecidableEq, Repr

def CATEGORY_WEIGHTS : CategoryWeights where
  protectiveGloves := 12/100
  cleanSurface := 12/100
  hairNet := 10/100
  properApron := 10/100
  handwashStation := 16/100
  bareHands := 20/100
  pestSigns := 15/100
  crossContamination := 5/100

/-- Embeds `HygieneScore` from `src/lib/scoring-engine.ts`. -/
structure HygieneScore where
  category : String
  score : ℚ
  weight : ℚ
  detectionRate : ℚ
  confidence : ℚ
deriving DecidableEq, Repr

/-- Embeds `Finding` from `src/lib/scoring-engine.ts` (severity is one of
"critical", "major", "minor"). -/
structure Finding where
  category : String
  severity : String
  description : String
  timestamp : ℕ
  frameNumber : ℕ
  confidence : ℚ
deriving DecidableEq, Repr

/-- Embeds `ScoringResult` from `src/lib/scoring-engine.ts`; `overallScore` is the
`Math.round`ed integer. -/
structure ScoringResult where
  overallScore : ℤ
  individualScores : List HygieneScore
  findings : List Finding
  summary : String
deriving DecidableEq, Repr

/-- Embeds `generateSummary` from `src/lib/scoring-engine.ts`.  When the 60–69
bucket has no low-scoring category, `problemAreas[0]` is `undefined` and the
template stringifies it, hence the literal "undefined". -/
def generateSummary (score : ℚ) (findings : List Finding) (scores : List HygieneScore) : String :=
  let criticalFindings := findings.filter (fun f => f.severity == "critical")
  let lowScores := scores.filter (fun s => s.score < 70)
  let highScores := scores.filter (fun s => 85 ≤ s.score)
  if 90 ≤ score then
    if 0 < highScores.length then
      let strengths := String.intercalate (" and ") ((highScores.map (fun s => s.category.toLower)).take 2)
      "Outstanding work! Your " ++ strengths ++ " practices are exemplary. Keep maintaining these high standards."
    else
      "Excellent hygiene practices observed throughout your food preparation. You\x27re setting a great example!"
  else if 80 ≤ score then
    if 0 < lowScores.length then
      let areas := String.intercalate (" and ") ((lowScores.map (fun s => s.category.toLower)).take 2)
      "Good overall performance! Focus on improving your " ++ areas ++ " to achieve excellence."
    else
      "Solid hygiene practices with just a few minor areas to refine. You\x27re doing well overall."
  else if 70 ≤ score then
    if 0 < criticalFindings.length then
      let issues := String.intercalate (" and ") ((criticalFindings.map (fun f => f.category.toLower)).take 2)
      "Your " ++ issues ++ " need immediate attention. Address these critical areas to meet safety standards."
    else
      "Acceptable baseline hygiene, but several practices need improvement to ensure consistent food safety."
  else if 60 ≤ score then
    let problemAreas := (lowScores.map (fun s => s.category.toLower)).take 3
    let areasList :=
      if 1 < problemAreas.length then
        String.intercalate (", ") problemAreas.dropLast ++ " and " ++ problemAreas.getLastD ("")
      else
        problemAreas.headD ("undefined")
    "Your " ++ areasList ++ " practices are below standard. Immediate corrective action is needed to ensure customer safety."
  else
    "Critical hygiene violations detected across multiple areas. A comprehensive review of your food safety protocols and immediate staff training is required."

/-- Embeds `calculateScores` from `src/lib/scoring-engine.ts`.  Detection rates are
computed with `totalFrames` as given (claims about this function assume it
positive, where JS division is exact rational division, see
`calculateFrequency_of_ne_zero`).  `individualScores` lists the eight
categories in push order; `findings` are pushed under the per-category
trigger conditions; `|| 0`, `|| 1` and `|| 0.85`-style fallbacks follow JS
falsiness. -/
def calculateScores (detections : MappedDetections) (totalFrames : ℚ) : ScoringResult :=
  let glovesFrequency := freqQ detections.protectiveGloves totalFrames
  let glovesScore := min 100 ((glovesFrequency / 80) * 100)
  let surfaceFrequency := freqQ detections.cleanSurface totalFrames
  let surfaceScore := min 100 ((surfaceFrequency / 60) * 100)
  let hairNetFrequency := freqQ detections.hairNet totalFrames
  let hairNetScore := min 100 ((hairNetFrequency / 70) * 100)
  let apronFrequency := freqQ detections.properApron totalFrames
  let apronScore := min 100 ((apronFrequency / 70) * 100)
  let handwashFrequency := freqQ detections.handwashStation totalFrames
  let handwashScore := min 100 ((handwashFrequency / 30) * 100)
  let bareHandsFrequency := freqQ detections.bareHands totalFrames
  let bareHandsScore := max 10 (100 - (bareHandsFrequency / 30) * 100)
  let pestFrequency := freqQ detections.pestSigns totalFrames
  let pestScore := max 0 (100 - (pestFrequency / 10) * 100)
  let crossContamFrequency := freqQ detections.crossContamination totalFrames
  let crossContamScore := max 10 (100 - (crossContamFrequency / 20) * 100)
  let individualScores : List HygieneScore :=
    [ { category := "Protective Gloves", score := glovesScore,
        weight := CATEGORY_WEIGHTS.protectiveGloves, detectionRate := glovesFrequency,
        confidence := detections.protectiveGloves.averageConfidence },
      { category := "Clean Surfaces", score := surfaceScore,
        weight := CATEGORY_WEIGHTS.cleanSurface, detectionRate := surfaceFrequency,
        confidence := detections.cleanSurface.averageConfidence },
      { category := "Hair Covering", score := hairNetScore,
        weight := CATEGORY_WEIGHTS.hairNet, detectionRate := hairNetFrequency,
        confidence := detections.hairNet.averageConfidence },
      { category := "Proper Apron", score := apronScore,
        weight := CATEGORY_WEIGHTS.properApron, detectionRate := apronFrequency,
        confidence := detections.properApron.averageConfidence },
      { category := "Handwash Station", score := handwashScore,
        weight := CATEGORY_WEIGHTS.handwashStation, detectionRate := handwashFrequency,
        confidence := detections.handwashStation.averageConfidence },
      { category := "Bare Hands", score := bareHandsScore,
        weight := CATEGORY_WEIGHTS.bareHands, detectionRate := bareHandsFrequency,
        confidence := detections.bareHands.averageConfidence },
      { category := "Pest Control", score := pestScore,
        weight := CATEGORY_WEIGHTS.pestSigns, detectionRate := pestFrequency,
        confidence := detections.pestSigns.averageConfidence },
      { category := "Cross Contamination", score := crossContamScore,
        weight := CATEGORY_WEIGHTS.crossContamination, detectionRate := crossContamFrequency,
        confidence := detections.crossContamination.averageConfidence } ]
  let findings : List Finding :=
    (if glovesFrequency < 60 then
      [ { category := "Protective Gloves", severity := "critical",
          description := "Protective gloves not consistently worn during food preparation",
          timestamp := jsHeadOr detections.protectiveGloves.detectedFrames 0,
          frameNumber := jsHeadOr detections.protectiveGloves.detectedFrames 1,
          confidence := jsOrDefault detections.protectiveGloves.averageConfidence (85/100) } ]
     else []) ++
    (if surfaceFrequency < 40 then
      [ { category := "Clean Surfaces", severity := "major",
          description := "Work surfaces not consistently clean — visible debris, grease, or stains",
          timestamp := jsHeadOr detections.cleanSurface.detectedFrames 0,
          frameNumber := jsHeadOr detections.cleanSurface.detectedFrames 1,
          confidence := jsOrDefault detections.cleanSurface.averageConfidence (7/10) } ]
     else []) ++
    (if hairNetFrequency < 50 then
      [ { category := "Hair Covering", severity := "major",
          description := "Hair covering not detected or worn improperly",
          timestamp := jsHeadOr detections.hairNet.detectedFrames 0,
          frameNumber := jsHeadOr detections.hairNet.detectedFrames 1,
          confidence := jsOrDefault detections.hairNet.averageConfidence (75/100) } ]
     else []) ++
    (if apronFrequency < 50 then
      [ { category := "Proper Apron", severity := "major",
          description := "Clean apron or chef coat not worn during food preparation",
          timestamp := jsHeadOr detections.properApron.detectedFrames 0,
          frameNumber := jsHeadOr detections.properApron.detectedFrames 1,
          confidence := jsOrDefault detections.properApron.averageConfidence (7/10) } ]
     else []) ++
    (if handwashFrequency < 10 then
      [ { category := "Handwash Station", severity := "critical",
          description := "No handwashing station with soap and paper towels visible in the preparation area",
          timestamp := jsHeadOr detections.handwashStation.detectedFrames 0,
          frameNumber := jsHeadOr detections.handwashStation.detectedFrames 1,
          confidence := jsOrDefault detections.handwashStation.averageConfidence (8/10) } ]
     else []) ++
    (if 20 < bareHandsFrequency then
      [ { category := "Bare Hands", severity := "critical",
          description := "Bare hands detected in contact with food or food-contact surfaces",
          timestamp := jsHeadOr detections.bareHands.detectedFrames 0,
          frameNumber := jsHeadOr detections.bareHands.detectedFrames 1,
          confidence := detections.bareHands.averageConfidence } ]
     else []) ++
    (if 0 < pestFrequency then
      [ { category := "Pest Control", severity := "critical",
          description := "Signs of pest activity detected — droppings, insects, or infestation evidence",
          timestamp := jsHeadOr detections.pestSigns.detectedFrames 0,
          frameNumber := jsHeadOr detections.pestSigns.detectedFrames 1,
          confidence := detections.pestSigns.averageConfidence } ]
     else []) ++
    (if 10 < crossContamFrequency then
      [ { category := "Cross Contamination", severity := "critical",
          description := "Raw meat/poultry/fish in direct contact with ready-to-eat foods",
          timestamp := jsHeadOr detections.crossContamination.detectedFrames 0,
          frameNumber := jsHeadOr detections.crossContamination.detectedFrames 1,
          confidence := detections.crossContamination.averageConfidence } ]
     else [])
  let overallScore := individualScores.foldl (fun sum s => sum + s.score * s.weight) 0
  let summary := generateSummary overallScore findings individualScores
  { overallScore := jsRound overallScore
    individualScores := individualScores
    findings := findings
    summary := summary }

/-- The weighted sum `Σ score × weight` over a score list, as the source
computes it (`reduce` with accumulator 0). -/
def weightedSum (scores : List HygieneScore) : ℚ :=
  scores.foldl (fun sum s => sum + s.score * s.weight) 0

/-- Embeds `VLMCategory` from `src/lib/vlm-service.ts`. -/
structure VLMCategory where
  detected : Bool
  confidence : ℚ
  details : String
deriving DecidableEq, Repr

/-- The fixed eight-category record of one frame analysis
(`FrameAnalysis.categories` in `src/lib/vlm-service.ts`). -/
structure FrameCategories where
  protectiveGloves : VLMCategory
  bareHands : VLMCategory
  hairNet : VLMCategory
  cleanSurface : VLMCategory
  properApron : VLMCategory
  handwashStation : VLMCategory
  pestSigns : VLMCategory
  crossContamination : VLMCategory
deriving DecidableEq, Repr

/-- Embeds `FrameAnalysis` from `src/lib/vlm-service.ts`. -/
structure FrameAnalysis where
  frameNumber : ℕ
  timestamp : ℕ
  categories : FrameCategories
deriving DecidableEq, Repr

/-- Per-category accumulator of `parseVLMResults`
(`detectedFrames` list, `totalDetections`, and the `confidenceAccum`
sum/count pair of `src/lib/vlm-response-parser.ts`). -/
structure CatAccum where
  detectedFrames : List ℕ
  totalDetections : ℕ
  confSum : ℚ
  confCount : ℕ
deriving DecidableEq, Repr

/-- One loop iteration of `parseVLMResults` for one category: when the frame
detects the category, its timestamp is appended unless already present,
`totalDetections` is incremented, and the confidence accumulator grows. -/
def accumStep (select : FrameAnalysis → VLMCategory) (acc : CatAccum) (a : FrameAnalysis) : CatAccum :=
  let cat := select a
  if cat.detected then
    { detectedFrames :=
        if acc.detectedFrames.contains a.timestamp then acc.detectedFrames
        else acc.detectedFrames ++ [a.timestamp]
      totalDetections := acc.totalDetections + 1
      confSum := acc.confSum + cat.confidence
      confCount := acc.confCount + 1 }
  else acc

/-- Builds one `HygieneCategory` of `parseVLMResults`: fold the per-frame
loop, then set `averageConfidence = sum / count` when `count > 0`, else 0. -/
def buildCategory (name : String) (isPositive : Bool)
    (select : FrameAnalysis → VLMCategory) (analyses : List FrameAnalysis) : HygieneCategory :=
  let acc := analyses.foldl (accumStep select) ⟨[], 0, 0, 0⟩
  { name := name
    keywords := []
    detectedFrames := acc.detectedFrames
    totalDetections := acc.totalDetections
    averageConfidence := if 0 < acc.confCount then acc.confSum / (acc.confCount : ℚ) else 0
    isPositive := isPositive }

/-- The `framesWithGloves` set of `parseVLMResults`: all timestamps of
analyses whose `protectiveGloves` category is detected (JS `Set` membership
is list membership here). -/
def framesWithGloves (analyses : List FrameAnalysis) : List ℕ :=
  (analyses.filter (fun a => a.categories.protectiveGloves.detected)).map (fun a => a.timestamp)

/-- Embeds `parseVLMResults` before its final glove exclusion step: the eight
aggregates with the names and polarities of `CATEGORY_CONFIG` in
`src/lib/vlm-response-parser.ts`. -/
def parseVLMResultsPre (analyses : List FrameAnalysis) : MappedDetections where
  protectiveGloves :=
    buildCategory ("Protective Gloves") true (fun a => a.categories.protectiveGloves) analyses
  bareHands :=
    buildCategory ("Bare Hands") false (fun a => a.categories.bareHands) analyses
  hairNet :=
    buildCategory ("Hair Net") true (fun a => a.categories.hairNet) analyses
  cleanSurface :=
    buildCategory ("Clean Surface") true (fun a => a.categories.cleanSurface) analyses
  properApron :=
    buildCategory ("Proper Apron") true (fun a => a.categories.properApron) analyses
  handwashStation :=
    buildCategory ("Handwash Station") true (fun a => a.categories.handwashStation) analyses
  pestSigns :=
    buildCategory ("Pest Signs") false (fun a => a.categories.pestSigns) analyses
  crossContamination :=
    buildCategory ("Cross-Contamination Risk") false (fun a => a.categories.crossContamination) analyses

/-- Embeds `parseVLMResults` from `src/lib/vlm-response-parser.ts`: aggregate all
frames, then drop every glove timestamp from the bare-hands
`detectedFrames` list (the only mutation the exclusion step performs; the
`totalFrames` argument is accepted but unused, as in the source). -/
def parseVLMResults (analyses : List FrameAnalysis) (totalFrames : ℕ) : MappedDetections :=
  let categories := parseVLMResultsPre analyses
  let gloveTimes := framesWithGloves analyses
  { categories with
    bareHands := { categories.bareHands with
      detectedFrames :=
        categories.bareHands.detectedFrames.filter (fun ts => !(gloveTimes.contains ts)) } }

/-- Embeds `VLMBatchResult` from `src/lib/vlm-service.ts`. -/
structure VLMBatchResult where
  analyses : List FrameAnalysis
  totalFrames : ℕ
deriving DecidableEq, Repr

/-- Character-list version of "starts with". -/
def leadsWith : List Char → List Char → Bool
  | [], _ => true
  | _ :: _, [] => false
  | a :: as, b :: bs => a == b && leadsWith as bs

/-- Character-list substring test. -/
def containsSub (needle : List Char) : List Char → Bool
  | [] => leadsWith needle []
  | c :: t => leadsWith needle (c :: t) || containsSub needle t

/-- JS `s.includes(pat)`. -/
def strIncludes (s pat : String) : Bool :=
  containsSub pat.toList s.toList

/-- The error classification at the end of `analyzeFramesBatch`
(`src/lib/vlm-service.ts`): configuration wording first, then rate-limit
wording, else a generic message carrying the first error. -/
def classifyBatchError (firstError : String) : String :=
  if strIncludes firstError ("API not configured") || strIncludes firstError ("HUGGINGFACE_API_TOKEN") then
    "Hugging Face API token not configured. Please set HUGGINGFACE_API_TOKEN in your environment variables."
  else if strIncludes firstError ("rate") || strIncludes firstError ("429") then
    "VLM API rate limit exceeded. Please try again in a few moments."
  else
    "VLM analysis failed: " ++ firstError

/-- Embeds `analyzeFramesBatch` from `src/lib/vlm-service.ts`.  The per-frame
network calls are modelled by their settled outcomes, in frame order
(`Promise.allSettled` preserves input order): `outcomes[i]` is frame `i`'s
`analyzeFrame` result.  Fulfilled values are collected into `analyses` and
rejection messages into `errors`, in order; when every frame failed and the
batch was nonempty the function throws the classified first error, otherwise
it returns the successes and the submitted frame count. -/
def analyzeFramesBatch (outcomes : List (Except String FrameAnalysis)) :
    Except String VLMBatchResult :=
  let analyses := outcomes.filterMap (fun r =>
    match r with
    | Except.ok a => some a
    | Except.error _ => none)
  let errors := outcomes.filterMap (fun r =>
    match r with
    | Except.ok _ => none
    | Except.error e => some e)
  if analyses.isEmpty && !outcomes.isEmpty then
    Except.error (classifyBatchError (errors.headD ("Unknown error")))
  else
    Except.ok { analyses := analyses, totalFrames := outcomes.length }

/-- Specification-side description of "the successful frames' analyses, in
original frame order, failed frames omitted". -/
def successfulAnalyses : List (Except String FrameAnalysis) → List FrameAnalysis
  | [] => []
  | Except.ok a :: rest => a :: successfulAnalyses rest
  | Except.error _ :: rest => successfulAnalyses rest

/-- JSON values (objects as ordered field lists), the value space of
`JSON.parse` in the `/api/vision/analyze` route (`src/unnamed/part_003`). -/
inductive Json where
  | null
  | bool (b : Bool)
  | num (q : ℚ)
  | str (s : String)
  | arr (xs : List Json)
  | obj (fields : List (String × Json))
deriving BEq, Repr

/-- The JS membership test `'k' in parsed` for a parsed JSON object. -/
def hasKey (fields : List (String × Json)) (k : String) : Bool :=
  fields.any (fun f => f.1 == k)

/-- The acceptance check each of the three parse attempts of
`parseVLMResponse` applies to a successfully parsed value
(`src/unnamed/part_003`): `parsed && typeof parsed === 'object' &&
'protectiveGloves' in parsed`, and the parsed value is then returned AS IS —
no clamping, no per-category shape validation.  The string-to-JSON
decoding of the three attempts is elided; this is the value-level step. -/
def parseVLMResponseCheck : Json → Option Json
  | Json.obj fields =>
      if hasKey fields ("protectiveGloves") then some (Json.obj fields) else none
  | _ => none

/-- Field lookup on a JSON object. -/
def lookupField (j : Json) (k : String) : Option Json :=
  match j with
  | Json.obj fields => (fields.find? (fun f => f.1 == k)).map (fun f => f.2)
  | _ => none

/-- The confidence number of one category entry of a parsed response, when
that entry has the expected shape. -/
def confidenceOfCat (j : Json) (k : String) : Option ℚ :=
  match lookupField j k with
  | some cat =>
      match lookupField cat ("confidence") with
      | some (Json.num q) => some q
      | _ => none
  | none => none

/-- Embeds `DEFAULT_CATEGORY` from `src/unnamed/part_003`. -/
def DEFAULT_CATEGORY : VLMCategory where
  detected := false
  confidence := 0
  details := "Not detected"

/-- Embeds `getFallbackCategories` from `src/unnamed/part_003`: the all-"not
detected" frame used when parsing fails entirely. -/
def getFallbackCategories : FrameCategories where
  protectiveGloves := DEFAULT_CATEGORY
  bareHands := DEFAULT_CATEGORY
  hairNet := DEFAULT_CATEGORY
  cleanSurface := DEFAULT_CATEGORY
  properApron := DEFAULT_CATEGORY
  handwashStation := DEFAULT_CATEGORY
  pestSigns := DEFAULT_CATEGORY
  crossContamination := DEFAULT_CATEGORY

/-- Outcome of the brightness validation section of `analyzeVideo`
(`src/lib/types.ts`): either the run aborts before the detection stage, or
it proceeds and the frames are submitted to the detector. -/
inductive BrightnessGateOutcome where
  | proceedToDetection
  | abortBeforeDetection (message : String)
deriving DecidableEq, Repr

/-- The body of the brightness `try` block in `analyzeVideo`: compute the
middle-frame brightness and throw "Video too dark…" when it is below the
threshold 30. -/
def brightnessCheckBody (brightness : ℚ) : Except String Unit :=
  if brightness < 30 then
    Except.error ("Video too dark for reliable analysis. Please record in a well-lit environment.")
  else
    Except.ok ()

/-- The whole brightness validation step of `analyzeVideo`
(`src/lib/types.ts`): the `try` block runs `calculateFrameBrightness`
(modelled by its settled result) and then `brightnessCheckBody`; the
surrounding `catch` logs "Brightness validation failed" and continues
("Continue anyway - brightness check is optional"), so BOTH the ok branch
and the error branch fall through to the detection stage. -/
def brightnessGate (brightnessResult : Except String ℚ) : BrightnessGateOutcome :=
  match brightnessResult.bind brightnessCheckBody with
  | Except.ok _ => BrightnessGateOutcome.proceedToDetection
  | Except.error _ => BrightnessGateOutcome.proceedToDetection

/-! Test fixtures (concrete inputs for witnesses and counterexamples). -/

/-- A category aggregate with a single detected frame. -/
def catOneFrame : HygieneCategory where
  name := "Pest Signs"
  keywords := []
  detectedFrames := [5]
  totalDetections := 1
  averageConfidence := 1/2
  isPositive := false

/-- A category aggregate with no detected frames. -/
def catNoFrames : HygieneCategory where
  name := "Pest Signs"
  keywords := []
  detectedFrames := []
  totalDetections := 0
  averageConfidence := 0
  isPositive := false

/-- A frame category marked detected. -/
def vlmYes : VLMCategory where
  detected := true
  confidence := 9/10
  details := "seen"

/-- A frame category marked not detected. -/
def vlmNo : VLMCategory where
  detected := false
  confidence := 0
  details := "none"

/-- A frame at timestamp 3 whose raw detection flags BOTH protective gloves
and bare hands. -/
def frameGlovesAndBare : FrameAnalysis where
  frameNumber := 1
  timestamp := 3
  categories :=
    { protectiveGloves := vlmYes
      bareHands := vlmYes
      hairNet := vlmNo
      cleanSurface := vlmNo
      properApron := vlmNo
      handwashStation := vlmNo
      pestSigns := vlmNo
      crossContamination := vlmNo }

/-! ### C2 -/

/-- The sum of the eight fields of a weight configuration. -/
def weightsTotal (w : CategoryWeights) : ℚ :=
  w.protectiveGloves + w.cleanSurface + w.hairNet + w.properApron +
    w.handwashStation + w.bareHands + w.pestSigns + w.crossContamination

/-- C2: the eight category weights of `CATEGORY_WEIGHTS`
(protectiveGloves, cleanSurface, hairNet, properApron, handwashStation,
bareHands, pestSigns, crossContamination) sum to 1.0 within 1e-6. -/
theorem category_weights_sum_to_one :
    |weightsTotal CATEGORY_WEIGHTS - 1| ≤ 1/1000000 := by
  norm_num [weightsTotal, CATEGORY_WEIGHTS]

/-! ### C6 -/

/-- C6 (corrected): with `totalFrames = 0` the detection-rate computation
does not throw — it returns a JS number — but that number is NaN (no
detected frames) or +Infinity (some detected frames), never the finite
value 0. -/
theorem calculateFrequency_zero_frames (category : HygieneCategory) :
    calculateFrequency category 0 =
      (if category.detectedFrames.length = 0 then JsNum.nan else JsNum.posInf) ∧
    calculateFrequency category 0 ≠ JsNum.val 0 := by
  constructor
  · cases h : category.detectedFrames.length with
    | zero => simp [calculateFrequency, jsDiv, jsMulPos, h]
    | succ n =>
        have hpos : (0 : ℚ) < (n : ℚ) + 1 := by positivity
        simp [calculateFrequency, jsDiv, jsMulPos, h, hpos, ne_of_gt hpos]
  · cases h : category.detectedFrames.length with
    | zero => simp [calculateFrequency, jsDiv, jsMulPos, h]
    | succ n =>
        have hpos : (0 : ℚ) < (n : ℚ) + 1 := by positivity
        simp [calculateFrequency, jsDiv, jsMulPos, h, hpos, ne_of_gt hpos]

/-- C6 counterexample: at `totalFrames = 0` the rate is +Infinity for a
category with one detected frame (and NaN for one with none) — it does not
default to 0 as claimed. -/
theorem calculateFrequency_zero_frames_not_zero :
    calculateFrequency catOneFrame 0 = JsNum.posInf ∧
    calculateFrequency catNoFrames 0 = JsNum.nan ∧
    JsNum.posInf ≠ JsNum.val 0 ∧ JsNum.nan ≠ JsNum.val 0 := by
  refine ⟨?_, ?_, by decide, by decide⟩
  · simp [calculateFrequency, catOneFrame, jsDiv, jsMulPos]
  · simp [calculateFrequency, catNoFrames, jsDiv, jsMulPos]

/-! ### C8 -/

/-- C8: a middle frame with average luminance 20 (below the fixed threshold
30) makes the brightness check body throw the "Video too dark" error, but
the surrounding catch swallows it and the run still proceeds to the
detection stage — the code never aborts before detection. -/
theorem dark_video_still_reaches_detection :
    brightnessCheckBody 20 =
      Except.error ("Video too dark for reliable analysis. Please record in a well-lit environment.") ∧
    brightnessGate (Except.ok 20) = BrightnessGateOutcome.proceedToDetection ∧
    (∀ brightnessResult, brightnessGate brightnessResult = BrightnessGateOutcome.proceedToDetection) := by
  refine ⟨by norm_num [brightnessCheckBody], by norm_num [brightnessGate, Except.bind, brightnessCheckBody], ?_⟩
  intro brightnessResult
  unfold brightnessGate
  cases brightnessResult.bind brightnessCheckBody <;> rfl

/-! ### C3 -/

/-- Membership in the glove-timestamp set. -/
theorem mem_framesWithGloves {analyses : List FrameAnalysis} {a : FrameAnalysis}
    (ha : a ∈ analyses) (hdet : a.categories.protectiveGloves.detected = true) :
    a.timestamp ∈ framesWithGloves analyses := by
  simp only [framesWithGloves, List.mem_map, List.mem_filter]
  exact ⟨a, ⟨ha, hdet⟩, rfl⟩

/-- C3: after aggregation, a timestamp at which protective gloves were
detected never appears in the bare-hands category's `detectedFrames`, even
when the raw per-frame detection flagged bare hands at that timestamp. -/
theorem glove_timestamps_excluded_from_bareHands
    (analyses : List FrameAnalysis) (totalFrames : ℕ) (ts : ℕ)
    (h : ∃ a ∈ analyses, a.categories.protectiveGloves.detected = true ∧ a.timestamp = ts) :
    ts ∉ (parseVLMResults analyses totalFrames).bareHands.detectedFrames := by
  intro hmem
  obtain ⟨a, ha, hdet, hts⟩ := h
  have hg : ts ∈ framesWithGloves analyses := hts ▸ mem_framesWithGloves ha hdet
  have hcontains : (framesWithGloves analyses).contains ts = true := by
    simpa [List.contains] using hg
  simp only [parseVLMResults, List.mem_filter] at hmem
  rw [hcontains] at hmem
  simp at hmem

/-- C3 witness: one frame at timestamp 3 with both gloves and bare hands
flagged; timestamp 3 is absent from the aggregated bare-hands frames. -/
theorem glove_exclusion_witness :
    (∃ a ∈ [frameGlovesAndBare],
        a.categories.protectiveGloves.detected = true ∧ a.timestamp = 3) ∧
    3 ∉ (parseVLMResults [frameGlovesAndBare] 1).bareHands.detectedFrames := by
  have hyp : ∃ a ∈ [frameGlovesAndBare],
      a.categories.protectiveGloves.detected = true ∧ a.timestamp = 3 :=
    ⟨frameGlovesAndBare, by simp, rfl, rfl⟩
  exact ⟨hyp, glove_timestamps_excluded_from_bareHands [frameGlovesAndBare] 1 3 hyp⟩

/-! ### C10 -/

/-- C10: the glove/bare-hands exclusion step changes only the bare-hands
`detectedFrames` list (to its filtered version); the bare-hands
`totalDetections` and `averageConfidence`, and every other category's whole
aggregate, are exactly those computed before the exclusion filter. -/
theorem exclusion_changes_only_bareHands_frames
    (analyses : List FrameAnalysis) (totalFrames : ℕ) :
    (parseVLMResults analyses totalFrames).protectiveGloves =
      (parseVLMResultsPre analyses).protectiveGloves ∧
    (parseVLMResults analyses totalFrames).hairNet =
      (parseVLMResultsPre analyses).hairNet ∧
    (parseVLMResults analyses totalFrames).cleanSurface =
      (parseVLMResultsPre analyses).cleanSurface ∧
    (parseVLMResults analyses totalFrames).properApron =
      (parseVLMResultsPre analyses).properApron ∧
    (parseVLMResults analyses totalFrames).handwashStation =
      (parseVLMResultsPre analyses).handwashStation ∧
    (parseVLMResults analyses totalFrames).pestSigns =
      (parseVLMResultsPre analyses).pestSigns ∧
    (parseVLMResults analyses totalFrames).crossContamination =
      (parseVLMResultsPre analyses).crossContamination ∧
    (parseVLMResults analyses totalFrames).bareHands.totalDetections =
      (parseVLMResultsPre analyses).bareHands.totalDetections ∧
    (parseVLMResults analyses totalFrames).bareHands.averageConfidence =
      (parseVLMResultsPre analyses).bareHands.averageConfidence ∧
    (parseVLMResults analyses totalFrames).bareHands.name =
      (parseVLMResultsPre analyses).bareHands.name ∧
    (parseVLMResults analyses totalFrames).bareHands.isPositive =
      (parseVLMResultsPre analyses).bareHands.isPositive ∧
    (parseVLMResults analyses totalFrames).bareHands.detectedFrames =
      (parseVLMResultsPre analyses).bareHands.detectedFrames.filter
        (fun ts => !((framesWithGloves analyses).contains ts)) :=
  ⟨rfl, rfl, rfl, rfl, rfl, rfl, rfl, rfl, rfl, rfl, rfl, rfl⟩

/-! ### Scoring-engine lemmas -/

/-- The score of the named category inside a scoring result (0 when the
name is absent). -/
def scoreOfCategory (r : ScoringResult) (cname : String) : ℚ :=
  match r.individualScores.find? (fun s => s.category == cname) with
  | some s => s.score
  | none => 0

theorem scoreOf_gloves (d : MappedDetections) (tf : ℚ) :
    scoreOfCategory (calculateScores d tf) ("Protective Gloves") =
      min 100 (freqQ d.protectiveGloves tf / 80 * 100) := rfl

theorem scoreOf_surface (d : MappedDetections) (tf : ℚ) :
    scoreOfCategory (calculateScores d tf) ("Clean Surfaces") =
      min 100 (freqQ d.cleanSurface tf / 60 * 100) := rfl

theorem scoreOf_hairNet (d : MappedDetections) (tf : ℚ) :
    scoreOfCategory (calculateScores d tf) ("Hair Covering") =
      min 100 (freqQ d.hairNet tf / 70 * 100) := rfl

theorem scoreOf_apron (d : MappedDetections) (tf : ℚ) :
    scoreOfCategory (calculateScores d tf) ("Proper Apron") =
      min 100 (freqQ d.properApron tf / 70 * 100) := rfl

theorem scoreOf_handwash (d : MappedDetections) (tf : ℚ) :
    scoreOfCategory (calculateScores d tf) ("Handwash Station") =
      min 100 (freqQ d.handwashStation tf / 30 * 100) := rfl

theorem scoreOf_bareHands (d : MappedDetections) (tf : ℚ) :
    scoreOfCategory (calculateScores d tf) ("Bare Hands") =
      max 10 (100 - freqQ d.bareHands tf / 30 * 100) := rfl

theorem scoreOf_pest (d : MappedDetections) (tf : ℚ) :
    scoreOfCategory (calculateScores d tf) ("Pest Control") =
      max 0 (100 - freqQ d.pestSigns tf / 10 * 100) := rfl

theorem scoreOf_crossContam (d : MappedDetections) (tf : ℚ) :
    scoreOfCategory (calculateScores d tf) ("Cross Contamination") =
      max 10 (100 - freqQ d.crossContamination tf / 20 * 100) := rfl

/-- An aggregate with no detections. -/
def emptyAgg (name : String) (isPositive : Bool) : HygieneCategory where
  name := name
  keywords := []
  detectedFrames := []
  totalDetections := 0
  averageConfidence := 0
  isPositive := isPositive

/-- The all-empty mapped detections. -/
def dEmpty : MappedDetections where
  protectiveGloves := emptyAgg ("Protective Gloves") true
  bareHands := emptyAgg ("Bare Hands") false
  hairNet := emptyAgg ("Hair Net") true
  cleanSurface := emptyAgg ("Clean Surface") true
  properApron := emptyAgg ("Proper Apron") true
  handwashStation := emptyAgg ("Handwash Station") true
  pestSigns := emptyAgg ("Pest Signs") false
  crossContamination := emptyAgg ("Cross-Contamination Risk") false

/-- Mapped detections with a single pest-sign detection at timestamp 2 and
nothing else. -/
def dPest : MappedDetections :=
  { dEmpty with
    pestSigns :=
      { emptyAgg ("Pest Signs") false with
        detectedFrames := [2]
        totalDetections := 1
        averageConfidence := 9/10 } }

/-! ### C4 -/

/-- C4: with a positive frame count, a category with no detected frames is
scored 0 when positive-polarity (gloves, clean surface, hair covering,
apron, handwash station) and 100 when violation-polarity (bare hands, pest
signs, cross-contamination). -/
theorem zero_detection_scores (d : MappedDetections) (tf : ℚ) (h : 0 < tf) :
    (d.protectiveGloves.detectedFrames = [] →
      scoreOfCategory (calculateScores d tf) ("Protective Gloves") = 0) ∧
    (d.cleanSurface.detectedFrames = [] →
      scoreOfCategory (calculateScores d tf) ("Clean Surfaces") = 0) ∧
    (d.hairNet.detectedFrames = [] →
      scoreOfCategory (calculateScores d tf) ("Hair Covering") = 0) ∧
    (d.properApron.detectedFrames = [] →
      scoreOfCategory (calculateScores d tf) ("Proper Apron") = 0) ∧
    (d.handwashStation.detectedFrames = [] →
      scoreOfCategory (calculateScores d tf) ("Handwash Station") = 0) ∧
    (d.bareHands.detectedFrames = [] →
      scoreOfCategory (calculateScores d tf) ("Bare Hands") = 100) ∧
    (d.pestSigns.detectedFrames = [] →
      scoreOfCategory (calculateScores d tf) ("Pest Control") = 100) ∧
    (d.crossContamination.detectedFrames = [] →
      scoreOfCategory (calculateScores d tf) ("Cross Contamination") = 100) := by
  refine ⟨fun he => ?_, fun he => ?_, fun he => ?_, fun he => ?_, fun he => ?_,
    fun he => ?_, fun he => ?_, fun he => ?_⟩
  · rw [scoreOf_gloves]; norm_num [freqQ, he]
  · rw [scoreOf_surface]; norm_num [freqQ, he]
  · rw [scoreOf_hairNet]; norm_num [freqQ, he]
  · rw [scoreOf_apron]; norm_num [freqQ, he]
  · rw [scoreOf_handwash]; norm_num [freqQ, he]
  · rw [scoreOf_bareHands]; norm_num [freqQ, he]
  · rw [scoreOf_pest]; norm_num [freqQ, he]
  · rw [scoreOf_crossContam]; norm_num [freqQ, he]

/-- C4 witness: on the all-empty aggregates with 10 frames, the five
positive categories score 0 and the three violation categories score 100. -/
theorem zero_detection_scores_witness :
    scoreOfCategory (calculateScores dEmpty 10) ("Protective Gloves") = 0 ∧
    scoreOfCategory (calculateScores dEmpty 10) ("Clean Surfaces") = 0 ∧
    scoreOfCategory (calculateScores dEmpty 10) ("Hair Covering") = 0 ∧
    scoreOfCategory (calculateScores dEmpty 10) ("Proper Apron") = 0 ∧
    scoreOfCategory (calculateScores dEmpty 10) ("Handwash Station") = 0 ∧
    scoreOfCategory (calculateScores dEmpty 10) ("Bare Hands") = 100 ∧
    scoreOfCategory (calculateScores dEmpty 10) ("Pest Control") = 100 ∧
    scoreOfCategory (calculateScores dEmpty 10) ("Cross Contamination") = 100 := by
  have h := zero_detection_scores dEmpty 10 (by norm_num)
  exact ⟨h.1 rfl, h.2.1 rfl, h.2.2.1 rfl, h.2.2.2.1 rfl, h.2.2.2.2.1 rfl,
    h.2.2.2.2.2.1 rfl, h.2.2.2.2.2.2.1 rfl, h.2.2.2.2.2.2.2 rfl⟩

/-! ### C5 -/

/-- C5 counterexample: a single pest-sign detection in 10 frames gives a
10% rate, and the pest-control score is exactly 0 — the pest floor is 0,
not strictly positive as claimed. -/
theorem pest_score_exactly_zero :
    scoreOfCategory (calculateScores dPest 10) ("Pest Control") = 0 := by
  rw [scoreOf_pest]
  norm_num [freqQ, dPest, dEmpty, emptyAgg]

/-- C5 (corrected): every violation category's score follows
`max(F, 100 − (rate / T) × 100)` with `(T, F)` equal to `(30, 10)` for bare
hands, `(10, 0)` for pest signs and `(20, 10)` for cross-contamination; the
bare-hands and cross-contamination floors are strictly positive, so those
two scores are never 0, but the pest floor is 0. -/
theorem violation_score_curves (d : MappedDetections) (tf : ℚ) (h : 0 < tf) :
    scoreOfCategory (calculateScores d tf) ("Bare Hands") =
      max 10 (100 - freqQ d.bareHands tf / 30 * 100) ∧
    scoreOfCategory (calculateScores d tf) ("Pest Control") =
      max 0 (100 - freqQ d.pestSigns tf / 10 * 100) ∧
    scoreOfCategory (calculateScores d tf) ("Cross Contamination") =
      max 10 (100 - freqQ d.crossContamination tf / 20 * 100) ∧
    0 < scoreOfCategory (calculateScores d tf) ("Bare Hands") ∧
    0 < scoreOfCategory (calculateScores d tf) ("Cross Contamination") := by
  refine ⟨scoreOf_bareHands d tf, scoreOf_pest d tf, scoreOf_crossContam d tf, ?_, ?_⟩
  · rw [scoreOf_bareHands]
    exact lt_of_lt_of_le (by norm_num) (le_max_left _ _)
  · rw [scoreOf_crossContam]
    exact lt_of_lt_of_le (by norm_num) (le_max_left _ _)

/-- C5 witness: the corrected curves evaluated on the single-pest-detection
input with 10 frames. -/
theorem violation_score_curves_witness :
    scoreOfCategory (calculateScores dPest 10) ("Bare Hands") =
      max 10 (100 - freqQ dPest.bareHands 10 / 30 * 100) ∧
    scoreOfCategory (calculateScores dPest 10) ("Pest Control") =
      max 0 (100 - freqQ dPest.pestSigns 10 / 10 * 100) ∧
    0 < scoreOfCategory (calculateScores dPest 10) ("Bare Hands") := by
  have h := violation_score_curves dPest 10 (by norm_num)
  exact ⟨h.1, h.2.1, h.2.2.2.1⟩

/-! ### C1 -/

/-- Detection rates are nonnegative on a positive frame count. -/
theorem freqQ_nonneg (cat : HygieneCategory) (tf : ℚ) (h : 0 < tf) :
    0 ≤ freqQ cat tf := by
  unfold freqQ
  positivity

/-- A positive-polarity score curve lies in `[0, 100]`. -/
theorem posCurve_bounds {f : ℚ} (hf : 0 ≤ f) {T : ℚ} (hT : 0 < T) :
    0 ≤ min 100 (f / T * 100) ∧ min 100 (f / T * 100) ≤ 100 :=
  ⟨le_min (by norm_num) (by positivity), min_le_left _ _⟩

/-- A violation-polarity score curve with floor `0 ≤ F ≤ 100` lies in
`[0, 100]`. -/
theorem violCurve_bounds {f F T : ℚ} (hf : 0 ≤ f) (hF0 : 0 ≤ F) (hF : F ≤ 100)
    (hT : 0 < T) :
    0 ≤ max F (100 - f / T * 100) ∧ max F (100 - f / T * 100) ≤ 100 := by
  have hs : 0 ≤ f / T * 100 := by positivity
  exact ⟨le_trans hF0 (le_max_left _ _), max_le hF (by linarith)⟩

/-- The weighted sum of the eight individual scores, written out. -/
theorem weightedSum_calculateScores (d : MappedDetections) (tf : ℚ) :
    weightedSum (calculateScores d tf).individualScores =
      0 + min 100 (freqQ d.protectiveGloves tf / 80 * 100) * (12/100)
        + min 100 (freqQ d.cleanSurface tf / 60 * 100) * (12/100)
        + min 100 (freqQ d.hairNet tf / 70 * 100) * (10/100)
        + min 100 (freqQ d.properApron tf / 70 * 100) * (10/100)
        + min 100 (freqQ d.handwashStation tf / 30 * 100) * (16/100)
        + max 10 (100 - freqQ d.bareHands tf / 30 * 100) * (20/100)
        + max 0 (100 - freqQ d.pestSigns tf / 10 * 100) * (15/100)
        + max 10 (100 - freqQ d.crossContamination tf / 20 * 100) * (5/100) := rfl

/-- C1: for every mapped-detections input and positive frame count, the
overall score is the `Math.round` of the weighted sum of the per-category
scores, and lies in `[0, 100]`. -/
theorem overall_score_is_rounded_weighted_sum (d : MappedDetections) (tf : ℚ)
    (h : 0 < tf) :
    (calculateScores d tf).overallScore =
      jsRound (weightedSum (calculateScores d tf).individualScores) ∧
    0 ≤ (calculateScores d tf).overallScore ∧
    (calculateScores d tf).overallScore ≤ 100 := by
  have h1 := posCurve_bounds (freqQ_nonneg d.protectiveGloves tf h) (show (0:ℚ) < 80 by norm_num)
  have h2 := posCurve_bounds (freqQ_nonneg d.cleanSurface tf h) (show (0:ℚ) < 60 by norm_num)
  have h3 := posCurve_bounds (freqQ_nonneg d.hairNet tf h) (show (0:ℚ) < 70 by norm_num)
  have h4 := posCurve_bounds (freqQ_nonneg d.properApron tf h) (show (0:ℚ) < 70 by norm_num)
  have h5 := posCurve_bounds (freqQ_nonneg d.handwashStation tf h) (show (0:ℚ) < 30 by norm_num)
  have h6 := violCurve_bounds (freqQ_nonneg d.bareHands tf h)
    (show (0:ℚ) ≤ 10 by norm_num) (show (10:ℚ) ≤ 100 by norm_num) (show (0:ℚ) < 30 by norm_num)
  have h7 := violCurve_bounds (freqQ_nonneg d.pestSigns tf h)
    (show (0:ℚ) ≤ 0 by norm_num) (show (0:ℚ) ≤ 100 by norm_num) (show (0:ℚ) < 10 by norm_num)
  have h8 := violCurve_bounds (freqQ_nonneg d.crossContamination tf h)
    (show (0:ℚ) ≤ 10 by norm_num) (show (10:ℚ) ≤ 100 by norm_num) (show (0:ℚ) < 20 by norm_num)
  have hws0 : 0 ≤ weightedSum (calculateScores d tf).individualScores := by
    rw [weightedSum_calculateScores]
    obtain ⟨a1, b1⟩ := h1; obtain ⟨a2, b2⟩ := h2; obtain ⟨a3, b3⟩ := h3
    obtain ⟨a4, b4⟩ := h4; obtain ⟨a5, b5⟩ := h5; obtain ⟨a6, b6⟩ := h6
    obtain ⟨a7, b7⟩ := h7; obtain ⟨a8, b8⟩ := h8
    linarith
  have hws1 : weightedSum (calculateScores d tf).individualScores ≤ 100 := by
    rw [weightedSum_calculateScores]
    obtain ⟨a1, b1⟩ := h1; obtain ⟨a2, b2⟩ := h2; obtain ⟨a3, b3⟩ := h3
    obtain ⟨a4, b4⟩ := h4; obtain ⟨a5, b5⟩ := h5; obtain ⟨a6, b6⟩ := h6
    obtain ⟨a7, b7⟩ := h7; obtain ⟨a8, b8⟩ := h8
    linarith
  refine ⟨rfl, ?_, ?_⟩
  · show (0:ℤ) ≤ jsRound (weightedSum (calculateScores d tf).individualScores)
    unfold jsRound
    exact Int.le_floor.mpr (by push_cast; linarith)
  · show jsRound (weightedSum (calculateScores d tf).individualScores) ≤ 100
    unfold jsRound
    have hlt : ⌊weightedSum (calculateScores d tf).individualScores + 1/2⌋ < 101 :=
      Int.floor_lt.mpr (by push_cast; linarith)
    omega

/-- C1 witness: on the all-empty aggregates with 10 frames the overall
score equals the rounded weighted sum and lies in `[0, 100]`. -/
theorem overall_score_witness :
    (0:ℚ) < 10 ∧
    ((calculateScores dEmpty 10).overallScore =
        jsRound (weightedSum (calculateScores dEmpty 10).individualScores) ∧
      0 ≤ (calculateScores dEmpty 10).overallScore ∧
      (calculateScores dEmpty 10).overallScore ≤ 100) :=
  ⟨by norm_num, overall_score_is_rounded_weighted_sum dEmpty 10 (by norm_num)⟩

/-! ### C7 -/

/-- The fulfilled-value collection of `analyzeFramesBatch` is exactly the
successful analyses in original frame order. -/
theorem filterMap_ok_eq_successfulAnalyses (outcomes : List (Except String FrameAnalysis)) :
    outcomes.filterMap (fun r =>
      match r with
      | Except.ok a => some a
      | Except.error _ => none) = successfulAnalyses outcomes := by
  induction outcomes with
  | nil => rfl
  | cons r t ih => cases r <;> simp [successfulAnalyses, ih, List.filterMap_cons]

theorem mem_successfulAnalyses {a : FrameAnalysis}
    {outcomes : List (Except String FrameAnalysis)} (h : Except.ok a ∈ outcomes) :
    a ∈ successfulAnalyses outcomes := by
  induction outcomes with
  | nil => simp at h
  | cons r t ih =>
      rcases List.mem_cons.mp h with heq | hmem
      · rw [← heq]; simp [successfulAnalyses]
      · cases r <;> simp [successfulAnalyses, ih hmem]

theorem successfulAnalyses_eq_nil_of_all_error
    {outcomes : List (Except String FrameAnalysis)}
    (h : ∀ r ∈ outcomes, ∀ a, r ≠ Except.ok a) :
    successfulAnalyses outcomes = [] := by
  induction outcomes with
  | nil => rfl
  | cons r t ih =>
      cases r with
      | ok a => exact absurd rfl (h (Except.ok a) (by simp) a)
      | error e =>
          exact ih (fun r hr a => h r (List.mem_cons_of_mem _ hr) a)

/-- C7: when at least one frame's detection succeeds, the batch returns the
successful analyses in original frame order with the submitted frame count;
when every frame fails (nonempty batch, so its first outcome is the first
error), the batch throws the error classified from that first message —
configuration wording when it mentions the missing API token, rate-limit
wording when it mentions "rate" or "429" (and no configuration marker, which
the code checks first). -/
theorem analyzeFramesBatch_partial_failure (outcomes : List (Except String FrameAnalysis)) :
    ((∃ a, Except.ok a ∈ outcomes) →
      analyzeFramesBatch outcomes =
        Except.ok { analyses := successfulAnalyses outcomes, totalFrames := outcomes.length }) ∧
    (∀ e rest, outcomes = Except.error e :: rest →
      (∀ r ∈ rest, ∀ a, r ≠ Except.ok a) →
      analyzeFramesBatch outcomes = Except.error (classifyBatchError e)) ∧
    (∀ msg, (strIncludes msg ("API not configured") || strIncludes msg ("HUGGINGFACE_API_TOKEN")) = true →
      classifyBatchError msg =
        "Hugging Face API token not configured. Please set HUGGINGFACE_API_TOKEN in your environment variables.") ∧
    (∀ msg, (strIncludes msg ("API not configured") || strIncludes msg ("HUGGINGFACE_API_TOKEN")) = false →
      (strIncludes msg ("rate") || strIncludes msg ("429")) = true →
      classifyBatchError msg =
        "VLM API rate limit exceeded. Please try again in a few moments.") := by
  refine ⟨?_, ?_, ?_, ?_⟩
  · rintro ⟨a, ha⟩
    have hmem := mem_successfulAnalyses ha
    have hne : (successfulAnalyses outcomes).isEmpty = false := by
      cases hs : successfulAnalyses outcomes with
      | nil => rw [hs] at hmem; simp at hmem
      | cons x xs => rfl
    unfold analyzeFramesBatch
    simp [filterMap_ok_eq_successfulAnalyses, hne]
  · rintro e rest rfl hall
    have hnil : successfulAnalyses (Except.error e :: rest) = [] := by
      refine successfulAnalyses_eq_nil_of_all_error ?_
      intro r hr a
      rcases List.mem_cons.mp hr with heq | hmem
      · rw [heq]; intro hc; cases hc
      · exact hall r hmem a
    unfold analyzeFramesBatch
    simp [filterMap_ok_eq_successfulAnalyses, hnil, List.filterMap_cons]
    exact hnil
  · intro msg hm
    simp [classifyBatchError, hm]
  · intro msg hm hr
    simp [classifyBatchError, hm, hr]

/-- C7 witness: a two-frame batch with one success returns just that
success with frame count 2; a batch whose single frame fails with an
"HTTP 429" message throws the rate-limit error. -/
theorem analyzeFramesBatch_witness :
    analyzeFramesBatch [Except.ok frameGlovesAndBare, Except.error ("boom")] =
      Except.ok { analyses := [frameGlovesAndBare], totalFrames := 2 } ∧
    analyzeFramesBatch [Except.error ("HTTP 429")] =
      Except.error ("VLM API rate limit exceeded. Please try again in a few moments.") := by
  constructor
  · exact (analyzeFramesBatch_partial_failure
      [Except.ok frameGlovesAndBare, Except.error ("boom")]).1 ⟨frameGlovesAndBare, by simp⟩
  · have h2 := (analyzeFramesBatch_partial_failure
      [Except.error ("HTTP 429")]).2.1 ("HTTP 429") [] rfl (by simp)
    have h4 := (analyzeFramesBatch_partial_failure
      [Except.error ("HTTP 429")]).2.2.2 ("HTTP 429") (by decide) (by decide)
    rw [h2, h4]

/-! ### C9 -/

/-- A parsed backend response with an out-of-range confidence (5) on the
gloves entry and a bare-hands entry that is a bare string, not a
`{detected, confidence, details}` object. -/
def badVLMFields : List (String × Json) :=
  [ ("protectiveGloves",
      Json.obj [ ("detected", Json.bool true), ("confidence", Json.num 5),
        ("details", Json.str "x") ]),
    ("bareHands", Json.str "garbage") ]

def badVLMJson : Json := Json.obj badVLMFields

/-- C9 counterexample: `parseVLMResponse` accepts this response (it is an
object with a `protectiveGloves` key) and returns it verbatim — the
confidence 5 is not clamped into `[0, 1]` and the malformed bare-hands
entry is not dropped. -/
theorem vlm_confidence_not_clamped :
    parseVLMResponseCheck badVLMJson = some badVLMJson ∧
    confidenceOfCat badVLMJson ("protectiveGloves") = some 5 ∧
    ¬((5:ℚ) ≤ 1) ∧
    lookupField badVLMJson ("bareHands") = some (Json.str "garbage") := by
  refine ⟨rfl, rfl, by norm_num, rfl⟩

/-- The categories the `/api/vision/analyze` route responds with
(`src/unnamed/part_003`): the parsed value verbatim when `parseVLMResponse`
accepts it, otherwise `getFallbackCategories`. -/
def routeCategories (j : Json) : Json ⊕ FrameCategories :=
  match parseVLMResponseCheck j with
  | some categories => Sum.inl categories
  | none => Sum.inr getFallbackCategories

/-- C9 (corrected): the only validation `parseVLMResponse` performs on a
successfully parsed value is that it is an object containing a
`protectiveGloves` key; such a value is returned exactly as parsed, with no
confidence clamping and no per-category shape check, and a response that
fails every parse attempt degrades the frame to the all-"not detected"
fallback rather than failing the batch. -/
theorem parseVLMResponse_passthrough (fields : List (String × Json))
    (h : hasKey fields ("protectiveGloves") = true) :
    parseVLMResponseCheck (Json.obj fields) = some (Json.obj fields) ∧
    routeCategories (Json.obj fields) = Sum.inl (Json.obj fields) ∧
    (∀ j, parseVLMResponseCheck j = none →
      routeCategories j = Sum.inr getFallbackCategories) := by
  have hacc : parseVLMResponseCheck (Json.obj fields) = some (Json.obj fields) := by
    simp [parseVLMResponseCheck, h]
  refine ⟨hacc, by simp [routeCategories, hacc], ?_⟩
  intro j hj
  simp [routeCategories, hj]

/-- C9 witness: the passthrough theorem evaluated on the concrete
unclamped response. -/
theorem parseVLMResponse_passthrough_witness :
    parseVLMResponseCheck (Json.obj badVLMFields) = some (Json.obj badVLMFields) :=
  (parseVLMResponse_passthrough badVLMFields rfl).1

end Inspectorchure
